import Mathlib

/-!
# Shallow embedding of the Solar Energy Potential estimator

Embeds the calculation block of `src/solar_app.py` (the only source file of
the repository).  The seven user inputs are collected by Streamlit widgets
(lines 94-130), the scalar results are computed at lines 137-143, the ROI
time series at lines 213-214 and the monthly breakdown at lines 241-242.
All Python arithmetic here is modelled over `ℚ` (the source only adds,
subtracts, multiplies, divides and truncates, so rational arithmetic tracks
the ideal real-number semantics; float rounding is not modelled).
-/

/-- The seven user-supplied inputs of the estimator, one field per Streamlit
widget (`src/solar_app.py` lines 94-130). -/
structure EstimatorInput where
  area : ℚ
  irradiance : ℚ
  tariff : ℚ
  panel_efficiency : ℚ
  system_losses : ℚ
  installation_cost : ℚ
  maintenance_cost : ℚ
deriving DecidableEq

/-- The widget range constraints (`min_value`/`max_value` of the widgets at
`src/solar_app.py` lines 94-130): area 10..1000, irradiance 3..7,
tariff 3..15, panel efficiency 15..25, system losses 10..25,
installation cost 40000..80000, maintenance 2000..8000. -/
def Valid (i : EstimatorInput) : Prop :=
  10 ≤ i.area ∧ i.area ≤ 1000 ∧
  3 ≤ i.irradiance ∧ i.irradiance ≤ 7 ∧
  3 ≤ i.tariff ∧ i.tariff ≤ 15 ∧
  15 ≤ i.panel_efficiency ∧ i.panel_efficiency ≤ 25 ∧
  10 ≤ i.system_losses ∧ i.system_losses ≤ 25 ∧
  40000 ≤ i.installation_cost ∧ i.installation_cost ≤ 80000 ∧
  2000 ≤ i.maintenance_cost ∧ i.maintenance_cost ≤ 8000

instance (i : EstimatorInput) : Decidable (Valid i) := by
  unfold Valid; infer_instance

/-- `performance_ratio = (100 - system_losses) / 100` (line 137). -/
def performance_ratio (i : EstimatorInput) : ℚ :=
  (100 - i.system_losses) / 100

/-- `annual_output = area * irradiance * 365 * performance_ratio *
(panel_efficiency/20)` (line 138). -/
def annual_output (i : EstimatorInput) : ℚ :=
  i.area * i.irradiance * 365 * performance_ratio i * (i.panel_efficiency / 20)

/-- `annual_savings = annual_output * tariff` (line 139). -/
def annual_savings (i : EstimatorInput) : ℚ :=
  annual_output i * i.tariff

/-- `total_system_cost = (annual_output / 1000) * installation_cost`
(line 140). -/
def total_system_cost (i : EstimatorInput) : ℚ :=
  annual_output i / 1000 * i.installation_cost

/-- `net_annual_savings = annual_savings - maintenance_cost` (line 141). -/
def net_annual_savings (i : EstimatorInput) : ℚ :=
  annual_savings i - i.maintenance_cost

/-- `payback = total_system_cost / net_annual_savings if net_annual_savings
> 0 else 0` (line 142). -/
def payback (i : EstimatorInput) : ℚ :=
  if net_annual_savings i > 0 then total_system_cost i / net_annual_savings i
  else 0

/-- `co2_reduction = annual_output * 0.82` (line 143). -/
def co2_reduction (i : EstimatorInput) : ℚ :=
  annual_output i * 0.82

/-- Python `int()` on a rational value: truncation toward zero. -/
def pyInt (q : ℚ) : ℤ :=
  if q < 0 then -⌊-q⌋ else ⌊q⌋

/-- `years = list(range(1, int(payback) + 5))` (line 213): the integers
1, 2, ..., int(payback) + 4 (empty when that upper end is below 1). -/
def years (i : EstimatorInput) : List ℤ :=
  (List.range (pyInt (payback i) + 4).toNat).map (fun (k : ℕ) => (k : ℤ) + 1)

/-- `cumulative_savings = [(year * net_annual_savings - total_system_cost)
for year in years]` (line 214). -/
def cumulative_savings (i : EstimatorInput) : List ℚ :=
  (years i).map (fun (year : ℤ) =>
    (year : ℚ) * net_annual_savings i - total_system_cost i)

/-- `seasonal_variation = [0.8, 0.9, 1.1, 1.2, 1.3, 1.2, 1.1, 1.1, 1.0,
0.9, 0.8, 0.7]` (line 241). -/
def seasonal_variation : List ℚ :=
  [0.8, 0.9, 1.1, 1.2, 1.3, 1.2, 1.1, 1.1, 1.0, 0.9, 0.8, 0.7]

/-- `monthly_output = [annual_output/12 * var for var in seasonal_variation]`
(line 242). -/
def monthly_output (i : EstimatorInput) : List ℚ :=
  seasonal_variation.map (fun var => annual_output i / 12 * var)

/-- The Solar Potential Score gauge value
`min(100, (annual_output/area) * 10)` (line 189). -/
def potential_score (i : EstimatorInput) : ℚ :=
  min 100 (annual_output i / i.area * 10)

/-- The full result record of one estimation pass, bundling every derived
value the script computes from the inputs. -/
structure EstimatorResult where
  performanceRatio : ℚ
  annualOutputKwh : ℚ
  annualSavings : ℚ
  totalSystemCost : ℚ
  netAnnualSavings : ℚ
  paybackYears : ℚ
  co2ReductionKg : ℚ
  monthlyOutputKwh : List ℚ
  cumulativeSavingsByYear : List ℚ
deriving DecidableEq

/-- One estimation pass: the whole calculation block (lines 137-143,
213-214, 241-242) as a single pure function of the inputs. -/
def estimate (i : EstimatorInput) : EstimatorResult where
  performanceRatio := performance_ratio i
  annualOutputKwh := annual_output i
  annualSavings := annual_savings i
  totalSystemCost := total_system_cost i
  netAnnualSavings := net_annual_savings i
  paybackYears := payback i
  co2ReductionKg := co2_reduction i
  monthlyOutputKwh := monthly_output i
  cumulativeSavingsByYear := cumulative_savings i

/-- The default / Scenario 1 input: area 100, irradiance 5.5, tariff 6.5,
efficiency 20, losses 15, installation cost 65000, maintenance 4000. -/
def scenario1 : EstimatorInput :=
  ⟨100, 5.5, 6.5, 20, 15, 65000, 4000⟩

/-- An out-of-range probe input (tariff 0) whose net annual savings are
negative, exercising the `else 0` branch of `payback`. -/
def zeroTariffInput : EstimatorInput :=
  ⟨100, 5.5, 0, 20, 15, 65000, 4000⟩

/-! ## Helper lemmas -/

/-- Lower bound on the annual output over the declared input ranges:
the least factor values are area 10, irradiance 3, losses 25, efficiency 15,
giving 10 * 3 * 365 * 0.75 * 0.75 = 6159.375 kWh. -/
theorem annual_output_lb (i : EstimatorInput) (h : Valid i) :
    (6159.375 : ℚ) ≤ annual_output i := by
  obtain ⟨h1, h2, h3, h4, h5, h6, h7, h8, h9, h10, h11, h12, h13, h14⟩ := h
  unfold annual_output performance_ratio
  have s1 : (10 * 3 : ℚ) ≤ i.area * i.irradiance :=
    mul_le_mul h1 h3 (by norm_num) (by linarith)
  have s2 : (10 * 3 * 365 : ℚ) ≤ i.area * i.irradiance * 365 := by linarith
  have s3 : ((75 : ℚ) / 100) ≤ (100 - i.system_losses) / 100 := by linarith
  have s4 : (10 * 3 * 365 : ℚ) * (75 / 100) ≤
      i.area * i.irradiance * 365 * ((100 - i.system_losses) / 100) :=
    mul_le_mul s2 s3 (by norm_num) (by linarith)
  have s5 : ((15 : ℚ) / 20) ≤ i.panel_efficiency / 20 := by linarith
  have s6 : (10 * 3 * 365 : ℚ) * (75 / 100) * (15 / 20) ≤
      i.area * i.irradiance * 365 * ((100 - i.system_losses) / 100) *
        (i.panel_efficiency / 20) :=
    mul_le_mul s4 s5 (by norm_num) (by linarith)
  calc (6159.375 : ℚ) = 10 * 3 * 365 * (75 / 100) * (15 / 20) := by norm_num
    _ ≤ _ := s6

/-- The annual output is positive on valid inputs. -/
theorem annual_output_pos (i : EstimatorInput) (h : Valid i) :
    0 < annual_output i :=
  lt_of_lt_of_le (by norm_num) (annual_output_lb i h)

/-- Net annual savings are positive on every valid input: the smallest
possible annual savings (6159.375 * 3) already exceed the largest possible
maintenance cost (8000). -/
theorem net_annual_savings_pos (i : EstimatorInput) (h : Valid i) :
    0 < net_annual_savings i := by
  have hb := annual_output_lb i h
  have hout := annual_output_pos i h
  obtain ⟨h1, h2, h3, h4, h5, h6, h7, h8, h9, h10, h11, h12, h13, h14⟩ := h
  unfold net_annual_savings annual_savings
  have hm : (6159.375 : ℚ) * 3 ≤ annual_output i * i.tariff :=
    mul_le_mul hb h5 (by norm_num) hout.le
  linarith

/-- Net annual savings are strictly below the total system cost on valid
inputs: the cost is at least 40 rupees per kWh of annual output while the
savings are at most 15 rupees per kWh. -/
theorem net_lt_total_cost (i : EstimatorInput) (h : Valid i) :
    net_annual_savings i < total_system_cost i := by
  have hout := annual_output_pos i h
  obtain ⟨h1, h2, h3, h4, h5, h6, h7, h8, h9, h10, h11, h12, h13, h14⟩ := h
  unfold net_annual_savings annual_savings total_system_cost
  have m1 : annual_output i * i.tariff ≤ annual_output i * 15 :=
    mul_le_mul_of_nonneg_left h6 hout.le
  have m2 : annual_output i * 40000 ≤ annual_output i * i.installation_cost :=
    mul_le_mul_of_nonneg_left h11 hout.le
  have e1 : annual_output i / 1000 * i.installation_cost =
      annual_output i * i.installation_cost / 1000 := by ring
  rw [e1]
  linarith

/-- On valid inputs the payback period always exceeds one year. -/
theorem one_lt_payback (i : EstimatorInput) (h : Valid i) :
    1 < payback i := by
  have hn := net_annual_savings_pos i h
  have hc := net_lt_total_cost i h
  rw [payback, if_pos hn]
  exact (one_lt_div hn).2 hc

/-- Python truncation agrees with the floor on nonnegative values. -/
theorem pyInt_eq_floor (q : ℚ) (h : 0 ≤ q) : pyInt q = ⌊q⌋ :=
  if_neg (not_lt.2 h)

/-- The ROI series has one entry per element of `years`, i.e.
`int(payback) + 4` entries (clamped at zero from below). -/
theorem cumulative_savings_length (i : EstimatorInput) :
    (cumulative_savings i).length = (pyInt (payback i) + 4).toNat := by
  simp only [cumulative_savings, years, List.length_map, List.length_range]

/-- On valid inputs the floor of the payback period is at least one. -/
theorem one_le_floor_payback (i : EstimatorInput) (h : Valid i) :
    1 ≤ ⌊payback i⌋ :=
  Int.le_floor.2 (by exact_mod_cast (one_lt_payback i h).le)

/-- The default Scenario 1 input satisfies every range constraint. -/
theorem scenario1_valid : Valid scenario1 := by
  simp only [Valid, scenario1]; norm_num

/-- The net annual savings of Scenario 1 are positive. -/
theorem scenario1_net_pos : 0 < net_annual_savings scenario1 := by
  simp only [net_annual_savings, annual_savings, annual_output,
    performance_ratio, scenario1]
  norm_num

/-- The zero-tariff probe input has nonpositive net annual savings. -/
theorem zeroTariffInput_net_nonpos : net_annual_savings zeroTariffInput ≤ 0 := by
  simp only [net_annual_savings, annual_savings, annual_output,
    performance_ratio, zeroTariffInput]
  norm_num

/-! ## Claim theorems -/

/-- C1: for every valid input, the performance ratio is
(100 - systemLossesPct)/100 and the annual output is
area * irradiance * 365 * performanceRatio * (panelEfficiencyPct/20),
exactly as computed at `src/solar_app.py` lines 137-138. -/
theorem C1_estimate_formulas (i : EstimatorInput) (_h : Valid i) :
    performance_ratio i = (100 - i.system_losses) / 100 ∧
    annual_output i =
      i.area * i.irradiance * 365 * performance_ratio i *
        (i.panel_efficiency / 20) :=
  ⟨rfl, rfl⟩

theorem C1_estimate_formulas_witness :
    Valid scenario1 ∧
    (performance_ratio scenario1 = (100 - scenario1.system_losses) / 100 ∧
      annual_output scenario1 =
        scenario1.area * scenario1.irradiance * 365 * performance_ratio scenario1 *
          (scenario1.panel_efficiency / 20)) :=
  ⟨scenario1_valid, C1_estimate_formulas scenario1 scenario1_valid⟩

/-- C2: the payback period equals totalSystemCost / netAnnualSavings when
the net annual savings are positive, and is the defined sentinel 0 whenever
they are nonpositive (`src/solar_app.py` line 142); no division happens in
the sentinel branch.  (Proved for every input, valid or not.) -/
theorem C2_payback_sentinel (i : EstimatorInput) :
    (0 < net_annual_savings i →
      payback i = total_system_cost i / net_annual_savings i) ∧
    (net_annual_savings i ≤ 0 → payback i = 0) := by
  constructor
  · intro hpos
    rw [payback, if_pos hpos]
  · intro hnp
    rw [payback, if_neg (not_lt.2 hnp)]

theorem C2_payback_sentinel_witness :
    (0 < net_annual_savings scenario1 ∧
      payback scenario1 = total_system_cost scenario1 / net_annual_savings scenario1) ∧
    (net_annual_savings zeroTariffInput ≤ 0 ∧ payback zeroTariffInput = 0) :=
  ⟨⟨scenario1_net_pos, (C2_payback_sentinel scenario1).1 scenario1_net_pos⟩,
    ⟨zeroTariffInput_net_nonpos,
      (C2_payback_sentinel zeroTariffInput).2 zeroTariffInput_net_nonpos⟩⟩

/-- C8: two estimation passes over identical inputs give identical results
in every field; the embedding of the calculation block
(`src/solar_app.py` lines 137-143, 213-214, 241-242) is a pure function of
the seven inputs, with no hidden state and no call ordering. -/
theorem C8_deterministic (i j : EstimatorInput) (h : i = j) :
    estimate i = estimate j := by
  rw [h]

theorem C8_deterministic_witness :
    scenario1 = scenario1 ∧ estimate scenario1 = estimate scenario1 :=
  ⟨rfl, C8_deterministic scenario1 scenario1 rfl⟩

/-- C9: for every valid input the Solar Potential Score gauge value
min(100, (annual_output/area) * 10) (`src/solar_app.py` line 189) equals
exactly 100: per-square-metre output is at least 6159.375 kWh/m2 over the
declared ranges, so the clamp always saturates. -/
theorem C9_potential_score_saturates (i : EstimatorInput) (h : Valid i) :
    potential_score i = 100 := by
  obtain ⟨h1, h2, h3, h4, h5, h6, h7, h8, h9, h10, h11, h12, h13, h14⟩ := h
  have harea : (0 : ℚ) < i.area := by linarith
  have hrw : annual_output i / i.area * 10 =
      i.irradiance * 365 * ((100 - i.system_losses) / 100) *
        (i.panel_efficiency / 20) * 10 := by
    have hne : i.area ≠ 0 := ne_of_gt harea
    unfold annual_output performance_ratio
    field_simp
    ring
  have hge : (100 : ℚ) ≤ annual_output i / i.area * 10 := by
    rw [hrw]
    have s3 : ((75 : ℚ) / 100) ≤ (100 - i.system_losses) / 100 := by linarith
    have s5 : ((15 : ℚ) / 20) ≤ i.panel_efficiency / 20 := by linarith
    have t1 : (3 * 365 : ℚ) ≤ i.irradiance * 365 := by linarith
    have t2 : (3 * 365 : ℚ) * (75 / 100) ≤
        i.irradiance * 365 * ((100 - i.system_losses) / 100) :=
      mul_le_mul t1 s3 (by norm_num) (by linarith)
    have t3 : (3 * 365 : ℚ) * (75 / 100) * (15 / 20) ≤
        i.irradiance * 365 * ((100 - i.system_losses) / 100) *
          (i.panel_efficiency / 20) :=
      mul_le_mul t2 s5 (by norm_num) (by linarith)
    linarith
  unfold potential_score
  exact min_eq_left hge

theorem C9_potential_score_saturates_witness :
    Valid scenario1 ∧ potential_score scenario1 = 100 :=
  ⟨scenario1_valid, C9_potential_score_saturates scenario1 scenario1_valid⟩

/-- C3: on every valid input the ROI series has at least 5 entries.  The
second conjunct records the claim's net-nonpositive case, which is vacuous
on valid inputs because their net annual savings are always positive. -/
theorem C3_at_least_five_entries (i : EstimatorInput) (h : Valid i) :
    5 ≤ (cumulative_savings i).length ∧
    (net_annual_savings i ≤ 0 → (cumulative_savings i).length = 5) := by
  have hp := one_lt_payback i h
  have hfl := one_le_floor_payback i h
  have hpy : pyInt (payback i) = ⌊payback i⌋ :=
    pyInt_eq_floor _ (by linarith)
  constructor
  · rw [cumulative_savings_length, hpy]
    omega
  · intro hnp
    exact absurd hnp (not_le.2 (net_annual_savings_pos i h))

theorem C3_at_least_five_entries_witness :
    Valid scenario1 ∧ 5 ≤ (cumulative_savings scenario1).length :=
  ⟨scenario1_valid, (C3_at_least_five_entries scenario1 scenario1_valid).1⟩

/-- C5: on every valid input the ROI series has exactly
floor(paybackYears) + 4 entries and the entry for year k+1 (position k)
equals (k+1) * netAnnualSavings - totalSystemCost
(`src/solar_app.py` lines 213-214). -/
theorem C5_cumulative_series (i : EstimatorInput) (h : Valid i) :
    ((cumulative_savings i).length : ℤ) = ⌊payback i⌋ + 4 ∧
    ∀ k : ℕ, k < (cumulative_savings i).length →
      (cumulative_savings i).getD k 0 =
        ((k : ℚ) + 1) * net_annual_savings i - total_system_cost i := by
  have hp := one_lt_payback i h
  have hfl := one_le_floor_payback i h
  have hpy : pyInt (payback i) = ⌊payback i⌋ :=
    pyInt_eq_floor _ (by linarith)
  constructor
  · rw [cumulative_savings_length, hpy]
    omega
  · intro k hk
    rw [List.getD_eq_getElem _ _ hk]
    simp only [cumulative_savings, years, List.getElem_map, List.getElem_range]
    push_cast
    ring

theorem C5_cumulative_series_witness :
    Valid scenario1 ∧
    ((cumulative_savings scenario1).length : ℤ) = ⌊payback scenario1⌋ + 4 :=
  ⟨scenario1_valid, (C5_cumulative_series scenario1 scenario1_valid).1⟩

/-- A second valid input used to witness strict monotonicity: Scenario 1
with the rooftop area doubled to 200 m2. -/
def scenario1LargerArea : EstimatorInput :=
  ⟨200, 5.5, 6.5, 20, 15, 65000, 4000⟩

/-- Scenario 1 with the larger area still satisfies every range bound. -/
theorem scenario1LargerArea_valid : Valid scenario1LargerArea := by
  simp only [Valid, scenario1LargerArea]; norm_num

/-- C6: holding the other inputs fixed, strictly increasing the rooftop
area, the irradiance, or the panel efficiency strictly increases the annual
output (`src/solar_app.py` line 138). -/
theorem C6_output_strict_mono (i j : EstimatorInput)
    (hi : Valid i) (hj : Valid j) :
    (i.irradiance = j.irradiance → i.panel_efficiency = j.panel_efficiency →
      i.system_losses = j.system_losses → i.area < j.area →
      annual_output i < annual_output j) ∧
    (i.area = j.area → i.panel_efficiency = j.panel_efficiency →
      i.system_losses = j.system_losses → i.irradiance < j.irradiance →
      annual_output i < annual_output j) ∧
    (i.area = j.area → i.irradiance = j.irradiance →
      i.system_losses = j.system_losses →
      i.panel_efficiency < j.panel_efficiency →
      annual_output i < annual_output j) := by
  obtain ⟨h1, h2, h3, h4, h5, h6, h7, h8, h9, h10, h11, h12, h13, h14⟩ := hi
  obtain ⟨g1, g2, g3, g4, g5, g6, g7, g8, g9, g10, g11, g12, g13, g14⟩ := hj
  have hpr : (0 : ℚ) < (100 - i.system_losses) / 100 :=
    div_pos (by linarith) (by norm_num)
  have harea : (0 : ℚ) < i.area := by linarith
  have hirr : (0 : ℚ) < i.irradiance := by linarith
  have heff : (0 : ℚ) < i.panel_efficiency / 20 :=
    div_pos (by linarith) (by norm_num)
  refine ⟨?_, ?_, ?_⟩ <;> intro e1 e2 e3 hlt
  · have hX : (0 : ℚ) <
        i.irradiance * 365 * ((100 - i.system_losses) / 100) *
          (i.panel_efficiency / 20) :=
      mul_pos (mul_pos (mul_pos hirr (by norm_num)) hpr) heff
    calc annual_output i
        = i.area * (i.irradiance * 365 * ((100 - i.system_losses) / 100) *
            (i.panel_efficiency / 20)) := by
          unfold annual_output performance_ratio; ring
      _ < j.area * (i.irradiance * 365 * ((100 - i.system_losses) / 100) *
            (i.panel_efficiency / 20)) := mul_lt_mul_of_pos_right hlt hX
      _ = annual_output j := by
          unfold annual_output performance_ratio
          rw [← e1, ← e2, ← e3]; ring
  · have hX : (0 : ℚ) <
        i.area * 365 * ((100 - i.system_losses) / 100) *
          (i.panel_efficiency / 20) :=
      mul_pos (mul_pos (mul_pos harea (by norm_num)) hpr) heff
    calc annual_output i
        = i.irradiance * (i.area * 365 * ((100 - i.system_losses) / 100) *
            (i.panel_efficiency / 20)) := by
          unfold annual_output performance_ratio; ring
      _ < j.irradiance * (i.area * 365 * ((100 - i.system_losses) / 100) *
            (i.panel_efficiency / 20)) := mul_lt_mul_of_pos_right hlt hX
      _ = annual_output j := by
          unfold annual_output performance_ratio
          rw [← e1, ← e2, ← e3]; ring
  · have hX : (0 : ℚ) <
        i.area * i.irradiance * 365 * ((100 - i.system_losses) / 100) / 20 :=
      div_pos (mul_pos (mul_pos (mul_pos harea hirr) (by norm_num)) hpr)
        (by norm_num)
    calc annual_output i
        = i.panel_efficiency *
            (i.area * i.irradiance * 365 * ((100 - i.system_losses) / 100) / 20) := by
          unfold annual_output performance_ratio; ring
      _ < j.panel_efficiency *
            (i.area * i.irradiance * 365 * ((100 - i.system_losses) / 100) / 20) :=
          mul_lt_mul_of_pos_right hlt hX
      _ = annual_output j := by
          unfold annual_output performance_ratio
          rw [← e1, ← e2, ← e3]; ring

theorem C6_output_strict_mono_witness :
    Valid scenario1 ∧ Valid scenario1LargerArea ∧
    annual_output scenario1 < annual_output scenario1LargerArea :=
  ⟨scenario1_valid, scenario1LargerArea_valid,
    (C6_output_strict_mono scenario1 scenario1LargerArea scenario1_valid
      scenario1LargerArea_valid).1 rfl rfl rfl (by norm_num [scenario1, scenario1LargerArea])⟩

/-- C7: the monthly breakdown (`src/solar_app.py` lines 241-242) has 12
entries, entry k is (annualOutput/12) * seasonalFactor[k] for the literal
factor table, and its total is annualOutput * (sum of factors / 12) --
where the factors sum to 12.1, not 12.  (Proved for every input.) -/
theorem C7_monthly_breakdown (i : EstimatorInput) :
    (monthly_output i).length = 12 ∧
    (∀ k : ℕ, k < 12 →
      (monthly_output i).getD k 0 =
        annual_output i / 12 * seasonal_variation.getD k 0) ∧
    (monthly_output i).sum = annual_output i * (seasonal_variation.sum / 12) := by
  refine ⟨?_, ?_, ?_⟩
  · simp [monthly_output, seasonal_variation]
  · intro k hk
    interval_cases k <;> simp [monthly_output, seasonal_variation]
  · simp only [monthly_output, seasonal_variation, List.map_cons, List.map_nil,
      List.sum_cons, List.sum_nil]
    ring

theorem C7_monthly_breakdown_witness :
    (monthly_output scenario1).length = 12 ∧
    (monthly_output scenario1).getD 2 0 =
      annual_output scenario1 / 12 * seasonal_variation.getD 2 0 :=
  ⟨(C7_monthly_breakdown scenario1).1,
    (C7_monthly_breakdown scenario1).2.1 2 (by norm_num)⟩

/-- C10: on every valid input with positive net annual savings, the final
ROI entry is strictly positive: the last generated year
int(payback) + 4 strictly exceeds the payback period, so the series
crosses break-even within the generated range
(`src/solar_app.py` lines 213-214). -/
theorem C10_crosses_break_even (i : EstimatorInput) (h : Valid i)
    (hn : 0 < net_annual_savings i) :
    ∀ hne : cumulative_savings i ≠ [],
      0 < (cumulative_savings i).getLast hne := by
  intro hne
  have hp := one_lt_payback i h
  have hfl := one_le_floor_payback i h
  have hpy : pyInt (payback i) = ⌊payback i⌋ :=
    pyInt_eq_floor _ (by linarith)
  rw [List.getLast_eq_getElem]
  simp only [cumulative_savings, years, List.length_map, List.length_range,
    List.getElem_map, List.getElem_range, hpy]
  have hN5 : 5 ≤ (⌊payback i⌋ + 4).toNat := by omega
  have hcast :
      (((((⌊payback i⌋ + 4).toNat - 1 : ℕ) : ℤ) + 1 : ℤ) : ℚ) =
        (((⌊payback i⌋ + 4).toNat : ℕ) : ℚ) := by
    push_cast [Nat.cast_sub (by omega : 1 ≤ (⌊payback i⌋ + 4).toNat)]
    ring
  rw [hcast]
  have hNq : payback i < (((⌊payback i⌋ + 4).toNat : ℕ) : ℚ) := by
    have hup : payback i < (⌊payback i⌋ : ℚ) + 1 := Int.lt_floor_add_one _
    have hto : (((⌊payback i⌋ + 4).toNat : ℕ) : ℤ) = ⌊payback i⌋ + 4 :=
      Int.toNat_of_nonneg (by omega)
    have hq : (((⌊payback i⌋ + 4).toNat : ℕ) : ℚ) = ((⌊payback i⌋ : ℤ) : ℚ) + 4 := by
      exact_mod_cast congrArg (fun z : ℤ => (z : ℚ)) hto
    rw [hq]
    linarith
  have hcost : total_system_cost i = payback i * net_annual_savings i := by
    rw [payback, if_pos hn]
    field_simp
  have hmul := mul_lt_mul_of_pos_right hNq hn
  linarith [hcost ▸ hmul]

theorem C10_crosses_break_even_witness :
    Valid scenario1 ∧ 0 < net_annual_savings scenario1 ∧
    ∀ hne : cumulative_savings scenario1 ≠ [],
      0 < (cumulative_savings scenario1).getLast hne :=
  ⟨scenario1_valid, scenario1_net_pos,
    C10_crosses_break_even scenario1 scenario1_valid scenario1_net_pos⟩

/-- C4 counterexample: at the Scenario 1 input the spec's quoted values
annualSavings 1108643.75 and netAnnualSavings 1104643.75 are both off by
exactly 500 rupees: the code computes 1109143.75 and 1105143.75
(170637.5 * 6.5 = 1109143.75, not 1108643.75), so neither quoted value is
even approximately right (the deviation exceeds a +-100 tolerance, far
beyond the two-decimal precision the claim quotes). -/
theorem C4_scenario1_counterexample :
    ¬ (|annual_savings scenario1 - 1108643.75| ≤ 100 ∧
       |net_annual_savings scenario1 - 1104643.75| ≤ 100) := by
  have e1 : annual_savings scenario1 - 1108643.75 = 500 := by
    simp only [annual_savings, annual_output, performance_ratio, scenario1]
    norm_num
  intro hcl
  obtain ⟨ha, _⟩ := hcl
  rw [e1] at ha
  rw [abs_of_pos (by norm_num)] at ha
  exact absurd ha (by norm_num)

/-- C4 amended: at the Scenario 1 input the code yields
performanceRatio 0.85, annualOutputKwh 170637.5,
annualSavings 1109143.75, totalSystemCost 11091437.5,
netAnnualSavings 1105143.75, paybackYears about 10.04 (within 0.005),
and co2ReductionKg 139922.75. -/
theorem C4_scenario1_values :
    performance_ratio scenario1 = 0.85 ∧
    annual_output scenario1 = 170637.5 ∧
    annual_savings scenario1 = 1109143.75 ∧
    total_system_cost scenario1 = 11091437.5 ∧
    net_annual_savings scenario1 = 1105143.75 ∧
    |payback scenario1 - 10.04| < 0.005 ∧
    co2_reduction scenario1 = 139922.75 := by
  have hpb : payback scenario1 = 1774630 / 176823 := by
    rw [payback, if_pos]
    · simp only [total_system_cost, net_annual_savings, annual_savings,
        annual_output, performance_ratio, scenario1]
      norm_num
    · simp only [net_annual_savings, annual_savings, annual_output,
        performance_ratio, scenario1]
      norm_num
  refine ⟨?_, ?_, ?_, ?_, ?_, ?_, ?_⟩
  · simp only [performance_ratio, scenario1]; norm_num
  · simp only [annual_output, performance_ratio, scenario1]; norm_num
  · simp only [annual_savings, annual_output, performance_ratio, scenario1]
    norm_num
  · simp only [total_system_cost, annual_output, performance_ratio, scenario1]
    norm_num
  · simp only [net_annual_savings, annual_savings, annual_output,
      performance_ratio, scenario1]
    norm_num
  · rw [hpb, abs_lt]
    constructor <;> norm_num
  · simp only [co2_reduction, annual_output, performance_ratio, scenario1]
    norm_num
